import Mathlib

/-!
Shallow embedding of the HeatingZone controller (custom_components/heatzone).

Temperatures, durations and timestamps are rationals (seconds for durations
and timestamps, degrees Celsius for temperatures); the Python floats carry
exact decimal values at every input exercised here.  Entity ids (valve
switches, floor sensors, zone names) are abstract numeric identifiers.
Sensor reads that are missing, report "unknown"/"unavailable" or fail float
conversion are modelled as `none`.
-/

namespace HeatZone

/-- Clamp `x` to `[lo, hi]`, written as the source writes it:
`max(lo, min(hi, x))`. -/
def clampQ (lo hi x : ℚ) : ℚ := max lo (min hi x)

/-! ### PWM controller (pwm.py) -/

/-- Configuration of `PWMController` (pwm.py `__init__`); all durations in
seconds (the source stores timedeltas and compares their `total_seconds()`). -/
structure PWMConfig where
  cycle_time : ℚ
  min_on_time : ℚ
  min_off_time : ℚ
  kp : ℚ
  ki : ℚ
  valve_open_time : ℚ
  valve_close_time : ℚ

/-- Mutable state of `PWMController` read and written by
`calculate_duty_cycle`: the integral accumulator, the `last_update`
timestamp (seconds, `none` before the first call) and the stored duty. -/
structure PWMState where
  integral : ℚ
  last_update : Option ℚ
  duty_cycle : ℚ

/-- Embeds the time-delta block of `PWMController.calculate_duty_cycle`
(pwm.py lines 61-66): `1.0` on the first call, otherwise
`max(dt_seconds / 60.0, 0.1)`. -/
def dt_minutes (last_update : Option ℚ) (now : ℚ) : ℚ :=
  match last_update with
  | none => 1
  | some lu => max ((now - lu) / 60) (1 / 10)

/-- Embeds the anti-windup clamp of `calculate_duty_cycle` (pwm.py lines
71-74): when `ki ≠ 0` the integral is clamped to `±100/|ki|`. -/
def anti_windup (ki integral : ℚ) : ℚ :=
  if ki ≠ 0 then clampQ (-(100 / |ki|)) (100 / |ki|) integral else integral

/-- Embeds `PWMController.calculate_duty_cycle` (pwm.py lines 48-92).
Returns the duty (0-100) together with the updated controller state:
`error = target - current`; the integral is incremented by
`error * dt_minutes` then anti-windup clamped; the duty is
`clamp(kp*error + ki*integral, 0, 100)`; `last_update` becomes `now`. -/
def calculate_duty_cycle (c : PWMConfig) (s : PWMState)
    (current_temp target_temp now : ℚ) : ℚ × PWMState :=
  let error := target_temp - current_temp
  let integral := anti_windup c.ki (s.integral + error * dt_minutes s.last_update now)
  let duty := clampQ 0 100 (c.kp * error + c.ki * integral)
  (duty, ⟨integral, some now, duty⟩)

/-- Sequential application of `calculate_duty_cycle` to a list of
`(current_temp, target_temp, now)` inputs, threading the state. -/
def run_duty_cycles (c : PWMConfig) : PWMState → List (ℚ × ℚ × ℚ) → PWMState
  | s, [] => s
  | s, (ct, tt, now) :: rest => run_duty_cycles c (calculate_duty_cycle c s ct tt now).2 rest

/-- Embeds the raw on-time of `PWMController.calculate_on_time` (pwm.py
line 97): `cycle_time * (duty/100)` seconds. -/
def raw_on (c : PWMConfig) (duty_cycle : ℚ) : ℚ :=
  c.cycle_time * (duty_cycle / 100)

/-- Embeds the dead-time compensation of `calculate_on_time` (pwm.py lines
100-101): raw on-time plus valve open + close transit times. -/
def compensated_on (c : PWMConfig) (duty_cycle : ℚ) : ℚ :=
  raw_on c duty_cycle + (c.valve_open_time + c.valve_close_time)

/-- Embeds `PWMController.calculate_on_time` (pwm.py lines 94-133): the
compensated on-time is snapped against `min_on_time` (to 0 when duty < 5,
else to `min_on_time`), then the resulting off-time against `min_off_time`
(to the full cycle when duty > 95, else to `cycle_time - min_off_time`),
and finally clamped to `[0, cycle_time]`. -/
def calculate_on_time (c : PWMConfig) (duty_cycle : ℚ) : ℚ :=
  let comp0 := compensated_on c duty_cycle
  let comp1 :=
    if 0 < comp0 ∧ comp0 < c.min_on_time then
      if duty_cycle < 5 then 0 else c.min_on_time
    else comp0
  let off_time := c.cycle_time - comp1
  let comp2 :=
    if 0 < off_time ∧ off_time < c.min_off_time then
      if duty_cycle > 95 then c.cycle_time else c.cycle_time - c.min_off_time
    else comp1
  clampQ 0 c.cycle_time comp2

/-- The on-time computation as §4.2 of the spec words it (raw on-time
written `cycle_time * duty / 100`); stated for comparison with
`calculate_on_time`. -/
def spec_on_time (c : PWMConfig) (duty_cycle : ℚ) : ℚ :=
  let comp0 := c.cycle_time * duty_cycle / 100 + (c.valve_open_time + c.valve_close_time)
  let comp1 :=
    if 0 < comp0 ∧ comp0 < c.min_on_time then
      if duty_cycle < 5 then 0 else c.min_on_time
    else comp0
  let off_time := c.cycle_time - comp1
  let comp2 :=
    if 0 < off_time ∧ off_time < c.min_off_time then
      if duty_cycle > 95 then c.cycle_time else c.cycle_time - c.min_off_time
    else comp1
  clampQ 0 c.cycle_time comp2

/-- The default `PWMController` configuration (pwm.py `__init__` defaults):
cycle 20 min, min-on 6 min, min-off 5 min, kp 30, ki 2, valve open/close
120 s each; expressed in seconds. -/
def pwmDefault : PWMConfig := ⟨1200, 360, 300, 30, 2, 120, 120⟩

/-! ### Gas boiler controller (boiler.py) -/

/-- Weather-compensation configuration of `GasBoilerController`
(boiler.py `__init__`). -/
structure BoilerConfig where
  heating_base_offset : ℚ
  flow_curve_offset : ℚ
  weather_slope_heat : ℚ
  min_water_temp : ℚ
  max_water_temp : ℚ

/-- A registered thermostat as `GasBoilerController` observes it: its
`target_temperature` property (`none` when unset) and whether its heating
circuits are currently on (`_are_circuits_on` / the zone's demand). -/
structure Thermostat where
  target_temperature : Option ℚ
  is_heating : Bool

/-- Embeds `GasBoilerController._get_warmest_zone_target` (boiler.py lines
139-147): the maximum of all registered thermostats' set target
temperatures, `none` when the list of targets is empty.  No filter on
zone demand appears in the source. -/
def get_warmest_zone_target (ts : List Thermostat) : Option ℚ :=
  (ts.filterMap Thermostat.target_temperature).max?

/-- Embeds `GasBoilerController._async_update_flow_temperature` (boiler.py
lines 92-127): with no outside reading the stored target is left unchanged
(early return); otherwise `warmest_target` defaults to 20.0 when no zone
target is available, and the stored target becomes
`clamp(warmest + base_offset + (warmest - outside) * slope + curve_offset,
min_water_temp, max_water_temp)`. -/
def update_flow_temperature (cfg : BoilerConfig) (outside_temp : Option ℚ)
    (ts : List Thermostat) (prev_flow : ℚ) : ℚ :=
  match outside_temp with
  | none => prev_flow
  | some outside =>
    let warmest := (get_warmest_zone_target ts).getD 20
    let base_water := warmest + cfg.heating_base_offset
    let weather := (warmest - outside) * cfg.weather_slope_heat
    clampQ cfg.min_water_temp cfg.max_water_temp
      (base_water + weather + cfg.flow_curve_offset)

/-- The warmest-target selection as the spec words it: maximum target over
zones *currently demanding heat*, default 20.0 when none; stated for
comparison with `get_warmest_zone_target`. -/
def spec_warmest_target (ts : List Thermostat) : ℚ :=
  (((ts.filter Thermostat.is_heating).filterMap Thermostat.target_temperature).max?).getD 20

/-- The target-flow computation as the spec words it, built on
`spec_warmest_target`; stated for comparison with
`update_flow_temperature`. -/
def spec_target_flow (cfg : BoilerConfig) (outside : ℚ) (ts : List Thermostat) : ℚ :=
  clampQ cfg.min_water_temp cfg.max_water_temp
    (spec_warmest_target ts + cfg.heating_base_offset
      + (spec_warmest_target ts - outside) * cfg.weather_slope_heat + cfg.flow_curve_offset)

/-- Commands `GasBoilerController.async_update_boiler_state` can trigger. -/
inductive BoilerCommand
  | turnOn
  | turnOffSafe
deriving DecidableEq

/-- Embeds `GasBoilerController.async_update_boiler_state` (boiler.py lines
158-169): rising edge of aggregate demand starts the boiler, falling edge
starts the safe shutdown, otherwise nothing happens. -/
def update_boiler_state (active_zones : ℕ) (is_boiler_on : Bool) : Option BoilerCommand :=
  let should_be_on := decide (active_zones > 0)
  if should_be_on && !is_boiler_on then some BoilerCommand.turnOn
  else if !should_be_on && is_boiler_on then some BoilerCommand.turnOffSafe
  else none

/-- Embeds `GasBoilerController._async_turn_off_boiler_safe` (boiler.py
lines 197-230) as the absolute time at which the heat-source OFF command is
issued, `none` when the early `not self._is_boiler_on` guard returns.  The
body blocks in `time.sleep(self._valve_close_time)` and then issues the OFF
command unconditionally: it reads nothing about zone demand between the
sleep and the command, so the result depends only on the start time and
`valve_close_time`. -/
def turn_off_boiler_safe (is_boiler_on : Bool) (start_time valve_close_time : ℚ) :
    Option ℚ :=
  if is_boiler_on then some (start_time + valve_close_time) else none

/-! ### Zone climate control (climate.py) -/

/-- The two HVAC modes a zone exposes (climate.py `_attr_hvac_modes`). -/
inductive HvacMode
  | heat
  | off
deriving DecidableEq

/-- Per-valve configuration of a zone (climate.py `zone_config["valves"]`):
actuator id, optional floor-sensor id, safety ceiling
(`max_floor_temp`, default 30). -/
structure ValveConfig where
  valve : ℕ
  floor_sensor : Option ℕ
  max_floor_temp : ℚ

/-- Per-zone configuration (climate.py `zone_config`): name, owned valves,
hysteresis band (default 0.5). -/
structure ZoneConfig where
  name : ℕ
  valves : List ValveConfig
  hysteresis : ℚ

/-- Mutable state of `ThermoZonaClimate` read and written by
`_async_control_zone`. -/
structure ZoneState where
  hvac_mode : HvacMode
  is_heating : Bool
  target_temperature : ℚ

/-- What one `_async_control_zone` evaluation does: call
`_async_turn_on_zone`, call `_async_turn_off_zone`, or neither (no valve or
boiler command issued). -/
inductive ZoneAction
  | idle
  | turnOn
  | turnOff
deriving DecidableEq

/-- Embeds the hysteresis decision of `ThermoZonaClimate._async_control_zone`
(climate.py lines 233-243): start when `current < target - hysteresis`,
keep heating while `current < target + hysteresis`. -/
def should_heat (is_heating : Bool) (current_temp target hysteresis : ℚ) : Bool :=
  if !is_heating then decide (current_temp < target - hysteresis)
  else decide (current_temp < target + hysteresis)

/-- Embeds `ThermoZonaClimate._async_control_zone` (climate.py lines
215-261).  Mode OFF: turn the zone off if it was heating.  Mode HEAT with
no temperature reading: return with no state change and no action.
Otherwise apply the hysteresis rule and act only on transitions. -/
def control_zone (hysteresis : ℚ) (st : ZoneState) (current_temp : Option ℚ) :
    ZoneState × ZoneAction :=
  match st.hvac_mode with
  | HvacMode.off =>
    if st.is_heating then ({ st with is_heating := false }, ZoneAction.turnOff)
    else (st, ZoneAction.idle)
  | HvacMode.heat =>
    match current_temp with
    | none => (st, ZoneAction.idle)
    | some ct =>
      let sh := should_heat st.is_heating ct st.target_temperature hysteresis
      if sh && !st.is_heating then ({ st with is_heating := true }, ZoneAction.turnOn)
      else if !sh && st.is_heating then ({ st with is_heating := false }, ZoneAction.turnOff)
      else (st, ZoneAction.idle)

/-- Embeds the floor-temperature safety check of
`ThermoZonaClimate._async_turn_on_zone` (climate.py lines 277-291): the
valve's open command is suppressed exactly when it has a floor sensor whose
reading is available and `floor_temp >= max_floor_temp`.  A missing,
unavailable or non-numeric reading (`none`) does not block. -/
def floor_blocks_valve (v : ValveConfig) (floorOf : ℕ → Option ℚ) : Bool :=
  match v.floor_sensor with
  | none => false
  | some s =>
    match floorOf s with
    | none => false
    | some ft => decide (ft ≥ v.max_floor_temp)

/-- Embeds the valve loop of `ThermoZonaClimate._async_turn_on_zone`
(climate.py lines 274-296): the list of valves commanded open, in order;
a valve blocked by the floor-safety check is skipped (`continue`) while the
remaining valves are still commanded. -/
def turn_on_zone_valve_commands (z : ZoneConfig) (floorOf : ℕ → Option ℚ) : List ℕ :=
  z.valves.filterMap fun v =>
    if floor_blocks_valve v floorOf then none else some v.valve

/-- Embeds `ThermoZonaClimate._is_valve_needed_by_other_zone` (climate.py
lines 331-355).  The source looks up each peer zone's published `heating`
attribute through its derived entity id; `heatingOf` models that lookup as
a map from zone name to the published attribute (`none` when the entity is
missing).  True iff some other configured zone is heating and owns the
valve. -/
def is_valve_needed_by_other_zone (all_zones : List ZoneConfig) (self_name : ℕ)
    (heatingOf : ℕ → Option Bool) (valve_switch : ℕ) : Bool :=
  all_zones.any fun z =>
    if z.name = self_name then false
    else
      match heatingOf z.name with
      | some true => z.valves.any fun v => decide (v.valve = valve_switch)
      | _ => false

/-- Embeds the valve loop of `ThermoZonaClimate._async_turn_off_zone`
(climate.py lines 298-315): the list of valves commanded closed, in order;
a valve needed by another heating zone is skipped (`continue`), i.e. left
open. -/
def turn_off_zone_valve_commands (all_zones : List ZoneConfig) (z : ZoneConfig)
    (heatingOf : ℕ → Option Bool) : List ℕ :=
  z.valves.filterMap fun v =>
    if is_valve_needed_by_other_zone all_zones z.name heatingOf v.valve then none
    else some v.valve

/-! ### Concrete instances used by the example-level conjuncts -/

/-- Boiler configuration of the spec's weather-compensation example:
base offset 3, curve offset 0, slope 0.25, water bounds [30, 45]. -/
def cfgC2 : BoilerConfig := ⟨3, 0, 1/4, 30, 45⟩

/-- Two registered thermostats: one with target 25 not demanding heat, one
with target 19 demanding heat. -/
def tsC2 : List Thermostat := [⟨some 25, false⟩, ⟨some 19, true⟩]

/-- One registered thermostat with target 21, demanding heat. -/
def tsC2b : List Thermostat := [⟨some 21, true⟩]

/-- Zone with two valves: valve 1 guarded by floor sensor 10 with ceiling
30, valve 2 without a floor sensor. -/
def zoneC8 : ZoneConfig := ⟨0, [⟨1, some 10, 30⟩, ⟨2, none, 30⟩], 1/2⟩

/-- Floor-sensor snapshot: sensor 10 reads 30.2 °C. -/
def floorC8 : ℕ → Option ℚ := fun s => if s = 10 then some (30.2 : ℚ) else none

/-- Zone A: name 1, owns valve 5. -/
def zoneA : ZoneConfig := ⟨1, [⟨5, none, 30⟩], 1/2⟩

/-- Zone B: name 2, also owns valve 5. -/
def zoneB : ZoneConfig := ⟨2, [⟨5, none, 30⟩], 1/2⟩

/-- Peer-state snapshot in which zone B is heating. -/
def heatingB : ℕ → Option Bool := fun n => if n = 2 then some true else some false

/-- Peer-state snapshot in which no zone is heating. -/
def heatingNone : ℕ → Option Bool := fun _ => some false

/-! ### Helper lemmas -/

theorem le_clampQ (lo hi x : ℚ) : lo ≤ clampQ lo hi x := le_max_left _ _

theorem clampQ_le (lo hi x : ℚ) (h : lo ≤ hi) : clampQ lo hi x ≤ hi :=
  max_le h (min_le_left _ _)

theorem le_foldl_max (l : List ℚ) (a : ℚ) : a ≤ l.foldl max a := by
  induction l generalizing a with
  | nil => exact le_refl a
  | cons b t ih => exact le_trans (le_max_left a b) (ih (max a b))

theorem mem_le_foldl_max (l : List ℚ) (a : ℚ) : ∀ x ∈ l, x ≤ l.foldl max a := by
  induction l generalizing a with
  | nil => intro x hx; cases hx
  | cons b t ih =>
    intro x hx
    rcases List.mem_cons.mp hx with rfl | h
    · exact le_trans (le_max_right a _) (le_foldl_max t _)
    · exact ih (max a b) x h

theorem le_max?_getD (l : List ℚ) (d : ℚ) : ∀ x ∈ l, x ≤ l.max?.getD d := by
  cases l with
  | nil => intro x hx; cases hx
  | cons a t =>
    intro x hx
    show x ≤ t.foldl max a
    rcases List.mem_cons.mp hx with rfl | h
    · exact le_foldl_max t _
    · exact mem_le_foldl_max t a x h

theorem filterMap_skip_eq {α β : Type} (p : α → Bool) (f : α → β) (l : List α) :
    (l.filterMap fun a => if p a then none else some (f a))
      = (l.filter fun a => !p a).map f := by
  induction l with
  | nil => rfl
  | cons a t ih =>
    by_cases h : p a = true
    · simp [List.filterMap_cons, List.filter_cons, h, ih]
    · simp [List.filterMap_cons, List.filter_cons, h, ih]

/-! ### Claim theorems -/

/-- Claim C4: each PI duty computation increments the integral by
`error * dt_minutes` (then applies the anti-windup clamp) and returns
`clamp(kp*error + ki*integral, 0, 100)` computed from the stored integral;
with error 2.0, kp 30, ki 2, dt 1 min and integral starting at 0 the
integral becomes 2.0 and the duty 64.0. -/
theorem calculate_duty_cycle_spec :
    (∀ (c : PWMConfig) (s : PWMState) (ct tt now : ℚ),
      (calculate_duty_cycle c s ct tt now).2.integral
          = anti_windup c.ki (s.integral + (tt - ct) * dt_minutes s.last_update now)
        ∧ (calculate_duty_cycle c s ct tt now).1
          = clampQ 0 100 (c.kp * (tt - ct)
              + c.ki * (calculate_duty_cycle c s ct tt now).2.integral))
    ∧ (calculate_duty_cycle pwmDefault ⟨0, some 0, 0⟩ 19 21 60).2.integral = 2
    ∧ (calculate_duty_cycle pwmDefault ⟨0, some 0, 0⟩ 19 21 60).1 = 64 := by
  refine ⟨fun c s ct tt now => ⟨rfl, rfl⟩, ?_, ?_⟩
  · norm_num [calculate_duty_cycle, pwmDefault, anti_windup, dt_minutes, clampQ,
      max_def, min_def, abs_two]
  · norm_num [calculate_duty_cycle, pwmDefault, anti_windup, dt_minutes, clampQ,
      max_def, min_def, abs_two]

/-- Claim C5: with `ki ≠ 0` the stored integral after each PI computation —
from any prior state, hence after every step of every sequence of
computations, spelled out for nonempty runs — lies within `±100/|ki|`. -/
theorem integral_antiwindup_bound (c : PWMConfig) (h : c.ki ≠ 0) :
    (∀ (s : PWMState) (ct tt now : ℚ),
      |(calculate_duty_cycle c s ct tt now).2.integral| ≤ 100 / |c.ki|)
    ∧ (∀ (s : PWMState) (ct tt now : ℚ) (rest : List (ℚ × ℚ × ℚ)),
      |(run_duty_cycles c s ((ct, tt, now) :: rest)).integral| ≤ 100 / |c.ki|) := by
  have hm : (0 : ℚ) ≤ 100 / |c.ki| := div_nonneg (by norm_num) (abs_nonneg _)
  have hstep : ∀ (s : PWMState) (ct tt now : ℚ),
      |(calculate_duty_cycle c s ct tt now).2.integral| ≤ 100 / |c.ki| := by
    intro s ct tt now
    show |anti_windup c.ki (s.integral + (tt - ct) * dt_minutes s.last_update now)| ≤ _
    unfold anti_windup
    rw [if_pos h, abs_le]
    exact ⟨le_clampQ _ _ _, clampQ_le _ _ _ (le_trans (neg_nonpos_of_nonneg hm) hm)⟩
  refine ⟨hstep, ?_⟩
  intro s ct tt now rest
  induction rest generalizing s ct tt now with
  | nil => exact hstep s ct tt now
  | cons i t ih =>
    obtain ⟨ct2, tt2, now2⟩ := i
    exact ih (calculate_duty_cycle c s ct tt now).2 ct2 tt2 now2

/-- Witness for claim C5 at the default configuration (ki = 2, so the bound
is ±50). -/
theorem integral_antiwindup_bound_witness :
    pwmDefault.ki ≠ 0
    ∧ |(calculate_duty_cycle pwmDefault ⟨0, some 0, 0⟩ 0 100 60).2.integral|
        ≤ 100 / |pwmDefault.ki| :=
  ⟨by norm_num [pwmDefault],
    (integral_antiwindup_bound pwmDefault (by norm_num [pwmDefault])).1 ⟨0, some 0, 0⟩ 0 100 60⟩

/-- Claim C10: `dt_minutes` is 1.0 on the very first call (no previous
update recorded) and never below 0.1; consequently on the first call the
integral increment before the anti-windup clamp is exactly the error. -/
theorem dt_minutes_spec :
    (∀ now : ℚ, dt_minutes none now = 1)
    ∧ (∀ (lu : Option ℚ) (now : ℚ), 1 / 10 ≤ dt_minutes lu now)
    ∧ (∀ (c : PWMConfig) (integ duty ct tt now : ℚ),
        (calculate_duty_cycle c ⟨integ, none, duty⟩ ct tt now).2.integral
          = anti_windup c.ki (integ + (tt - ct))) := by
  refine ⟨fun now => rfl, ?_, ?_⟩
  · intro lu now
    cases lu with
    | none => norm_num [dt_minutes]
    | some lu => exact le_max_right _ _
  · intro c integ duty ct tt now
    show anti_windup c.ki (integ + (tt - ct) * dt_minutes none now)
        = anti_windup c.ki (integ + (tt - ct))
    rw [show dt_minutes none now = 1 from rfl, mul_one]

/-- Claim C6: the on-time computation matches the claimed pipeline (raw
on-time `cycle_time * duty / 100` plus valve dead time, min-on / min-off
snapping with the 5 % and 95 % thresholds, final clamp), always lands in
`[0, cycle_time]`, and at the example input (cycle 20 min, duty 50 %,
valve open/close 120 s each) the pre-clamp compensated on-time is 840 s. -/
theorem calculate_on_time_spec (c : PWMConfig) (d : ℚ)
    (hd0 : 0 ≤ d) (hd1 : d ≤ 100) (hc : 0 ≤ c.cycle_time) :
    calculate_on_time c d = spec_on_time c d
    ∧ 0 ≤ calculate_on_time c d
    ∧ calculate_on_time c d ≤ c.cycle_time
    ∧ compensated_on pwmDefault 50 = 840 := by
  have hraw : compensated_on c d
      = c.cycle_time * d / 100 + (c.valve_open_time + c.valve_close_time) := by
    unfold compensated_on raw_on; ring
  refine ⟨?_, le_clampQ _ _ _, clampQ_le _ _ _ hc, by norm_num [compensated_on, raw_on, pwmDefault]⟩
  unfold calculate_on_time spec_on_time
  rw [hraw]

/-- Witness for claim C6 at the default configuration and duty 50 %. -/
theorem calculate_on_time_spec_witness :
    (0 : ℚ) ≤ 50 ∧ (50 : ℚ) ≤ 100 ∧ (0 : ℚ) ≤ pwmDefault.cycle_time
    ∧ (calculate_on_time pwmDefault 50 = spec_on_time pwmDefault 50
      ∧ 0 ≤ calculate_on_time pwmDefault 50
      ∧ calculate_on_time pwmDefault 50 ≤ pwmDefault.cycle_time
      ∧ compensated_on pwmDefault 50 = 840) :=
  ⟨by norm_num, by norm_num, by norm_num [pwmDefault],
    calculate_on_time_spec pwmDefault 50 (by norm_num) (by norm_num)
      (by norm_num [pwmDefault])⟩

/-- Claim C1 (failing input): the safe shutdown is not cancellable.  At a
falling edge (0 active zones, boiler on) `update_boiler_state` starts
`turn_off_boiler_safe`; while the blocking wait is pending the boiler flag
is still on, so renewed demand (1 active zone, flag on) triggers no action
at all; and the shutdown started at t0 = 0 with valve_close_time = 120 s
issues the OFF command at t = 120 whatever happened in between. -/
theorem boiler_off_despite_renewed_demand :
    update_boiler_state 0 true = some BoilerCommand.turnOffSafe
    ∧ update_boiler_state 1 true = none
    ∧ turn_off_boiler_safe true 0 120 = some 120 :=
  ⟨rfl, rfl, by norm_num [turn_off_boiler_safe]⟩

/-- Claim C2 counterexample: with a non-demanding zone at target 25 and a
demanding zone at target 19 (outside 0 °C, base offset 3, slope 0.25,
curve 0, bounds [30, 45]) the source computes the flow target from the
global maximum 25, giving 34.25 °C, while the claim's demand-filtered
maximum 19 gives 30.0 °C. -/
theorem warmest_target_ignores_demand :
    update_flow_temperature cfgC2 (some 0) tsC2 30 = 137 / 4
    ∧ spec_target_flow cfgC2 0 tsC2 = 30
    ∧ update_flow_temperature cfgC2 (some 0) tsC2 30 ≠ spec_target_flow cfgC2 0 tsC2 := by
  refine ⟨?_, ?_, ?_⟩ <;>
    norm_num [update_flow_temperature, spec_target_flow, spec_warmest_target,
      get_warmest_zone_target, tsC2, cfgC2, clampQ, List.max?, List.filterMap_cons,
      List.filter_cons, Thermostat.target_temperature, Thermostat.is_heating,
      max_def, min_def]

/-- Claim C2 as amended: for every update with an available outside reading
the stored flow target equals
`clamp(w + base_offset + (w - outside) * slope + curve_offset, min, max)`
where `w` is the maximum target over all registered zones with a set target
(20.0 when there is none; demand is not consulted); the result lies in
`[min_water_temp, max_water_temp]`; and the spec's numeric example (single
zone at 21, outside 0) clamps 29.25 up to 30. -/
theorem update_flow_temperature_amended (cfg : BoilerConfig)
    (ts : List Thermostat) (prev outside : ℚ)
    (hb : cfg.min_water_temp ≤ cfg.max_water_temp) :
    update_flow_temperature cfg (some outside) ts prev
      = clampQ cfg.min_water_temp cfg.max_water_temp
          ((get_warmest_zone_target ts).getD 20 + cfg.heating_base_offset
            + ((get_warmest_zone_target ts).getD 20 - outside) * cfg.weather_slope_heat
            + cfg.flow_curve_offset)
    ∧ cfg.min_water_temp ≤ update_flow_temperature cfg (some outside) ts prev
    ∧ update_flow_temperature cfg (some outside) ts prev ≤ cfg.max_water_temp
    ∧ (∀ t ∈ ts, ∀ x : ℚ, t.target_temperature = some x
        → x ≤ (get_warmest_zone_target ts).getD 20)
    ∧ (ts.filterMap Thermostat.target_temperature = []
        → (get_warmest_zone_target ts).getD 20 = 20)
    ∧ update_flow_temperature cfgC2 (some 0) tsC2b 30 = 30 := by
  refine ⟨rfl, le_clampQ _ _ _, clampQ_le _ _ _ hb, ?_, ?_, ?_⟩
  · intro t ht x hx
    exact le_max?_getD _ 20 x (List.mem_filterMap.mpr ⟨t, ht, hx⟩)
  · intro h
    unfold get_warmest_zone_target
    rw [h]
    rfl
  · norm_num [update_flow_temperature, get_warmest_zone_target, tsC2b, cfgC2, clampQ,
      List.max?, List.filterMap_cons, Thermostat.target_temperature, max_def, min_def]

/-- Witness for the amended claim C2 at the concrete two-zone input. -/
theorem update_flow_temperature_amended_witness :
    cfgC2.min_water_temp ≤ cfgC2.max_water_temp
    ∧ update_flow_temperature cfgC2 (some 0) tsC2 30
        = clampQ cfgC2.min_water_temp cfgC2.max_water_temp
            ((get_warmest_zone_target tsC2).getD 20 + cfgC2.heating_base_offset
              + ((get_warmest_zone_target tsC2).getD 20 - 0) * cfgC2.weather_slope_heat
              + cfgC2.flow_curve_offset)
    ∧ cfgC2.min_water_temp ≤ update_flow_temperature cfgC2 (some 0) tsC2 30 :=
  ⟨by norm_num [cfgC2], (update_flow_temperature_amended cfgC2 tsC2 30 0 (by norm_num [cfgC2])).1,
    (update_flow_temperature_amended cfgC2 tsC2 30 0 (by norm_num [cfgC2])).2.1⟩

/-- Claim C3: in HEAT mode with an available reading a non-heating zone
starts heating exactly when `current < target - hysteresis` and a heating
zone keeps heating exactly while `current < target + hysteresis`; with
target 21 and hysteresis 0.5: 20.4 °C starts heating, 21.4 °C keeps
heating, 21.5 °C stops. -/
theorem zone_hysteresis_spec :
    (∀ tgt hyst ct : ℚ,
      (control_zone hyst ⟨HvacMode.heat, false, tgt⟩ (some ct)).1.is_heating
        = decide (ct < tgt - hyst))
    ∧ (∀ tgt hyst ct : ℚ,
      (control_zone hyst ⟨HvacMode.heat, true, tgt⟩ (some ct)).1.is_heating
        = decide (ct < tgt + hyst))
    ∧ (control_zone (1/2) ⟨HvacMode.heat, false, 21⟩ (some (20.4 : ℚ))).1.is_heating = true
    ∧ (control_zone (1/2) ⟨HvacMode.heat, true, 21⟩ (some (21.4 : ℚ))).1.is_heating = true
    ∧ (control_zone (1/2) ⟨HvacMode.heat, true, 21⟩ (some (21.5 : ℚ))).1.is_heating = false := by
  refine ⟨?_, ?_, ?_, ?_, ?_⟩
  · intro tgt hyst ct
    by_cases h : ct < tgt - hyst <;> simp [control_zone, should_heat, h]
  · intro tgt hyst ct
    by_cases h : ct < tgt + hyst <;> simp [control_zone, should_heat, h]
  all_goals norm_num [control_zone, should_heat, decide_eq_true_eq]

/-- Claim C9: an evaluation in HEAT mode with an unavailable room reading
changes nothing: the state (in particular `is_heating`) is returned
unchanged and neither a turn-on nor a turn-off action is taken, so no valve
or boiler command is issued for the zone on that tick. -/
theorem zone_unavailable_sensor_spec :
    ∀ (ih : Bool) (tgt hyst : ℚ),
      control_zone hyst ⟨HvacMode.heat, ih, tgt⟩ none
        = (⟨HvacMode.heat, ih, tgt⟩, ZoneAction.idle) :=
  fun _ _ _ => rfl

/-- Claim C8: when a zone with demand turns on, an owned valve's open
command is suppressed exactly when its floor sensor reads at or above its
ceiling, the zone's other valves still being commanded open; a reading of
30.2 °C against a 30.0 °C ceiling suppresses valve 1 while the sensorless
valve 2 is still opened. -/
theorem floor_safety_spec :
    (∀ (z : ZoneConfig) (floorOf : ℕ → Option ℚ),
      turn_on_zone_valve_commands z floorOf
        = (z.valves.filter fun v => !floor_blocks_valve v floorOf).map ValveConfig.valve)
    ∧ (∀ (v : ValveConfig) (floorOf : ℕ → Option ℚ),
      floor_blocks_valve v floorOf = true
        ↔ ∃ s ft, v.floor_sensor = some s ∧ floorOf s = some ft ∧ v.max_floor_temp ≤ ft)
    ∧ turn_on_zone_valve_commands zoneC8 floorC8 = [2] := by
  refine ⟨fun z floorOf => filterMap_skip_eq _ _ _, ?_,
    by norm_num [turn_on_zone_valve_commands, floor_blocks_valve, zoneC8, floorC8,
      List.filterMap_cons, decide_eq_true_eq]⟩
  intro v floorOf
  cases hs : v.floor_sensor with
  | none => simp [floor_blocks_valve, hs]
  | some s =>
    cases hf : floorOf s with
    | none => simp [floor_blocks_valve, hs, hf]
    | some ft => simp [floor_blocks_valve, hs, hf, ge_iff_le]

/-- Claim C7: when a zone's demand ends, each owned valve is commanded
closed exactly when no other configured zone that is currently heating also
owns it; with zones A and B sharing valve 5 and B heating, A's turn-off
issues no close command (valve 5 stays open), while with no peer heating
the close command is issued. -/
theorem shared_valve_arbitration_spec :
    (∀ (az : List ZoneConfig) (z : ZoneConfig) (h : ℕ → Option Bool),
      turn_off_zone_valve_commands az z h
        = (z.valves.filter
            fun v => !is_valve_needed_by_other_zone az z.name h v.valve).map ValveConfig.valve)
    ∧ (∀ (az : List ZoneConfig) (n : ℕ) (h : ℕ → Option Bool) (w : ℕ),
      is_valve_needed_by_other_zone az n h w = true
        ↔ ∃ z ∈ az, z.name ≠ n ∧ h z.name = some true ∧ ∃ v ∈ z.valves, v.valve = w)
    ∧ turn_off_zone_valve_commands [zoneA, zoneB] zoneA heatingB = []
    ∧ turn_off_zone_valve_commands [zoneA, zoneB] zoneA heatingNone = [5] := by
  refine ⟨fun az z h => filterMap_skip_eq _ _ _, ?_, by decide, by decide⟩
  intro az n h w
  unfold is_valve_needed_by_other_zone
  rw [List.any_eq_true]
  refine exists_congr fun z => and_congr_right fun _ => ?_
  by_cases hn : z.name = n
  · simp [hn]
  · cases hh : h z.name with
    | none => simp [hn, hh]
    | some b =>
      cases b with
      | false => simp [hn, hh]
      | true => simp [hn, hh, List.any_eq_true]

end HeatZone
